import Mathlib

/-!
# Verification of the plant_monitor sensor core

Shallow embedding of the sensor-protocol layer of the plant_monitor
repository: the three device drivers (AHT10 combo temperature/humidity,
DS18B20 one-wire temperature probe, GY-302 digital light sensor), the
sensor registry (`sensor_interface.c`), and the health scorer
(`plant_monitor.c`).

Modelling conventions:
* C `float` arithmetic is embedded as exact rational arithmetic (`ℚ`);
  every constant appearing in the source (`0.0625f`, `1.2f`, `100.0f /
  1048576.0f`, band bounds) is an exactly representable rational, and
  the claims under scrutiny are stated with explicit tolerances.
* Bytes are natural numbers; buffers read from the bus are `List ℕ`
  indexed with `getD` (the source reads into fixed-size `uint8_t`
  arrays); theorems that need the `uint8_t` bound carry `b < 256`
  hypotheses.
* Bus/driver I/O is nondeterministic environment input: the outcome of
  each primitive transaction (reset result, i2c return code, bytes
  read) is a parameter of the embedded function, exactly as the source
  consumes it.
* `esp_err_t` codes are naturals (`ESP_OK = 0`, the ESP-IDF constants
  for the rest).
-/

namespace PlantMonitor

/-! ## ESP-IDF error codes (esp_err.h) -/

def ESP_OK : ℕ := 0
def ESP_ERR_INVALID_ARG : ℕ := 0x102
def ESP_ERR_INVALID_STATE : ℕ := 0x103
def ESP_ERR_NOT_FOUND : ℕ := 0x105
def ESP_ERR_TIMEOUT : ℕ := 0x107
def ESP_ERR_INVALID_RESPONSE : ℕ := 0x108

/-! ## Maxim/Dallas CRC8 (polynomial x^8 + x^5 + x^4 + 1, reflected 0x8C)

The DS18B20 datasheet checksum over the scratchpad.  This is the check
the specification mandates; `ds18b20.c` does NOT implement it (see
`ds18b20_read` below), so we define it here to compare the code's
behaviour against the required one. -/

/-- One bit step of the Dallas CRC8: shift right, conditionally xor 0x8C. -/
def crc8_step (crc : ℕ) : ℕ :=
  if crc % 2 = 1 then (crc / 2) ^^^ 0x8C else crc / 2

/-- Fold one byte into the Dallas CRC8 state (8 bit steps). -/
def crc8_byte (crc b : ℕ) : ℕ :=
  crc8_step^[8] ((crc ^^^ b) % 256)

/-- Dallas/Maxim CRC8 of a byte list, initial value 0. -/
def crc8_maxim (bytes : List ℕ) : ℕ :=
  bytes.foldl crc8_byte 0

/-! ## DS18B20 probe driver (`src/sensors/ds18b20.c`) -/

/-- Two's-complement reading of a 16-bit value, as the C cast
`int16_t raw = (scratchpad[1] << 8) | scratchpad[0]` performs. -/
def toInt16 (n : ℕ) : ℤ :=
  if n % 65536 < 32768 then (n % 65536 : ℤ) else (n % 65536 : ℤ) - 65536

/-- Mirrors `ds18b20_reading_t`: on failure paths the source never writes
`temperature`, so it is an `Option` here.  In `ds18b20_read` every path
stores into `reading->error` the same value it returns, so `error` also
records the function's return value. -/
structure Ds18b20Reading where
  temperature : Option ℚ
  valid : Bool
  error : ℕ
deriving DecidableEq

/-- Embeds `ds18b20_read` (ds18b20.c:184-251).  Environment inputs:
`initialized` is the `g_initialized` flag, `reset1`/`reset2` are the two
`onewire_reset` outcomes (true = presence detected = `ESP_OK`), and
`scratchpad` is the 9-byte buffer returned by the nine
`onewire_read_byte` calls.  The source's "CRC check" (lines 234-240) is
`if (scratchpad[8] != 0)` - it never computes a CRC. -/
def ds18b20_read (initialized reset1 reset2 : Bool) (scratchpad : List ℕ) :
    Ds18b20Reading :=
  if !initialized then ⟨none, false, ESP_ERR_INVALID_STATE⟩
  else if !reset1 then ⟨none, false, ESP_ERR_NOT_FOUND⟩
  else if !reset2 then ⟨none, false, ESP_ERR_NOT_FOUND⟩
  else if scratchpad.getD 8 0 ≠ 0 then ⟨none, false, ESP_ERR_INVALID_RESPONSE⟩
  else
    let raw : ℤ := toInt16 ((scratchpad.getD 1 0) * 256 + scratchpad.getD 0 0)
    ⟨some ((raw : ℚ) * 0.0625), true, ESP_OK⟩

/-! ## AHT10 combo driver (`src/sensors/aht10.c`) -/

/-- Mirrors `aht10_reading_t`; `aht10_read` first zeroes the whole struct
(`memset`), so all fields are always written. -/
structure Aht10Reading where
  humidity : ℚ
  temperature : ℚ
  valid : Bool
  error : ℕ
deriving DecidableEq

/-- Status-byte and data decoding of `aht10_read` (aht10.c:174-208),
applied once the 6 data bytes have been read successfully. -/
def aht10_decode (data : List ℕ) : Aht10Reading :=
  let d0 := data.getD 0 0
  if d0 / 128 % 2 = 1 then        -- data[0] & AHT10_STATUS_BUSY (0x80)
    ⟨0, 0, false, ESP_ERR_TIMEOUT⟩
  else if d0 / 8 % 2 = 0 then     -- !(data[0] & AHT10_STATUS_CAL) (0x08)
    ⟨0, 0, false, ESP_ERR_INVALID_STATE⟩
  else
    let hraw := (data.getD 1 0) * 4096 + (data.getD 2 0) * 16 + (data.getD 3 0) / 16
    let traw := ((data.getD 3 0) % 16) * 65536 + (data.getD 4 0) * 256 + data.getD 5 0
    let hum : ℚ := (hraw : ℚ) * 100 / 1048576
    let temp : ℚ := (traw : ℚ) * 200 / 1048576 - 50
    if 0 ≤ hum ∧ hum ≤ 100 ∧ -50 ≤ temp ∧ temp ≤ 150 then
      ⟨hum, temp, true, ESP_OK⟩
    else
      ⟨hum, temp, false, ESP_ERR_INVALID_RESPONSE⟩

/-- Embeds `aht10_read` (aht10.c:145-211).  `writeRet`/`readRet` are the
return codes of the i2c write of the measurement command and of the
6-byte data read; `data` is the buffer read.  Returns the reading as the
function leaves `*reading` plus the `esp_err_t` result; `none` when the
source returns before touching the struct. -/
def aht10_read (initialized : Bool) (writeRet readRet : ℕ) (data : List ℕ) :
    Option Aht10Reading × ℕ :=
  if !initialized then (none, ESP_ERR_INVALID_ARG)
  else if writeRet ≠ 0 then (some ⟨0, 0, false, writeRet⟩, writeRet)
  else if readRet ≠ 0 then (some ⟨0, 0, false, readRet⟩, readRet)
  else
    let r := aht10_decode data
    (some r, r.error)

/-! ## GY-302 light driver (`src/sensors/gy302.c`) -/

/-- The six measurement-mode command codes of gy302.h. -/
inductive Gy302Mode where
  | contH | contH2 | contL | oneH | oneH2 | oneL
deriving DecidableEq

/-- Command code of each mode (gy302.h:41-46). -/
def Gy302Mode.code : Gy302Mode → ℕ
  | .contH => 0x10
  | .contH2 => 0x11
  | .contL => 0x13
  | .oneH => 0x20
  | .oneH2 => 0x21
  | .oneL => 0x23

/-- `g_current_mode >= GY302_MODE_ONE_H` (gy302.c:191). -/
def Gy302Mode.isOneShot (m : Gy302Mode) : Bool :=
  decide (0x20 ≤ m.code)

/-- Lux conversion switch of `gy302_read` (gy302.c:220-237): every
branch, one per mode, divides the raw 16-bit value by `1.2f`. -/
def gy302_decode (mode : Gy302Mode) (raw : ℕ) : ℚ :=
  match mode with
  | .contH => (raw : ℚ) / 1.2
  | .oneH => (raw : ℚ) / 1.2
  | .contH2 => (raw : ℚ) / 1.2
  | .oneH2 => (raw : ℚ) / 1.2
  | .contL => (raw : ℚ) / 1.2
  | .oneL => (raw : ℚ) / 1.2

/-- Mirrors `gy302_reading_t`; failure paths never write `lux`. -/
structure Gy302Reading where
  lux : Option ℚ
  valid : Bool
  error : ℕ
deriving DecidableEq

/-- Embeds `gy302_read` (gy302.c:177-246).  `writeRet` is the return
code of re-issuing the mode command (one-shot modes only), `readRet`
that of the 2-byte data read, `data` the buffer. -/
def gy302_read (initialized : Bool) (mode : Gy302Mode)
    (writeRet readRet : ℕ) (data : List ℕ) : Gy302Reading :=
  if !initialized then ⟨none, false, ESP_ERR_INVALID_STATE⟩
  else if mode.isOneShot ∧ writeRet ≠ 0 then ⟨none, false, writeRet⟩
  else if readRet ≠ 0 then ⟨none, false, readRet⟩
  else
    let raw := (data.getD 0 0) * 256 + data.getD 1 0
    ⟨some (gy302_decode mode raw), true, ESP_OK⟩

/-! ## Sensor registry (`src/sensors/sensor_interface.c`)

The registry dispatches on the configured sensor type and fills one
`sensor_reading_t` slot per descriptor.  The outcome of the underlying
driver call (init + read + deinit inside the `read_*_sensor` helpers,
lines 96-267) is abstracted as an environment value `DriverCall`: either
a failing step with its nonzero `esp_err_t`, or a successful read
carrying the values the driver reported.  In the source each helper's
failure branch has a nonzero return code (each driver's `read` returns
`ESP_OK` exactly on its valid path), captured by `DriverCall.wf`. -/

/-- Mirrors `sensor_type_t` (sensor_interface.h). -/
inductive SensorType where
  | aht10 | ds18b20 | gy302 | soilMoisture | analogLight
deriving DecidableEq

/-- The fields of `sensor_config_t` the registry logic reads. -/
structure SensorConfig where
  type : SensorType
  enabled : Bool
deriving DecidableEq

/-- Mirrors `sensor_reading_t` (sensor_interface.h). -/
structure SensorReading where
  temperature : ℚ
  humidity : ℚ
  soil_moisture : ℕ
  light_level : ℕ
  lux : ℚ
  valid : Bool
  error : ℕ
deriving DecidableEq

/-- The per-entry field initialisation of `sensor_interface_read_all`
(sensor_interface.c:334-341). -/
def initSlot : SensorReading :=
  ⟨0, 0, 0, 0, 0, false, 0⟩

/-- Outcome of one driver-level read attempt, as consumed by the
`read_*_sensor` helpers: a failed init/read step with its error code, or
a successful read with the values the driver reported (each helper uses
only the fields relevant to its sensor type). -/
inductive DriverCall where
  | initFail (e : ℕ)
  | readFail (e : ℕ)
  | success (temperature humidity lux : ℚ) (raw : ℕ)
deriving DecidableEq

/-- In the source, every failing helper branch carries a nonzero
`esp_err_t`. -/
def DriverCall.wf : DriverCall → Prop
  | .initFail e => e ≠ 0
  | .readFail e => e ≠ 0
  | .success _ _ _ _ => True

/-- `(uint16_t)(gy302_reading.lux / 10.0f)` (sensor_interface.c:205):
truncation of the nonnegative lux value. -/
def lightLevelOfLux (lux : ℚ) : ℕ :=
  (⌊lux / 10⌋).toNat

/-- One enabled dispatch step of `sensor_interface_read_all`
(sensor_interface.c:343-370): the freshly initialised slot is filled by
the type's helper; returns the final slot and the helper's return code.
The helpers on failure set `valid = false, error = ret` on the slot; on
success they copy their sensor's fields (the probe helper explicitly
zeroes humidity, the light helper derives `light_level` from lux). -/
def read_one_sensor (t : SensorType) (d : DriverCall) : SensorReading × ℕ :=
  match d with
  | .initFail e => ({ initSlot with error := e }, e)
  | .readFail e => ({ initSlot with error := e }, e)
  | .success temp hum lux raw =>
    match t with
    | .aht10 =>
        ({ initSlot with temperature := temp, humidity := hum, valid := true }, ESP_OK)
    | .ds18b20 =>
        ({ initSlot with temperature := temp, humidity := 0, valid := true }, ESP_OK)
    | .gy302 =>
        ({ initSlot with lux := lux, light_level := lightLevelOfLux lux, valid := true }, ESP_OK)
    | .soilMoisture =>
        ({ initSlot with soil_moisture := raw, valid := true }, ESP_OK)
    | .analogLight =>
        ({ initSlot with light_level := raw, valid := true }, ESP_OK)

/-- The loop of `sensor_interface_read_all` (sensor_interface.c:327-380):
`for (i = 0; i < sensor_count && i < max_readings; i++)`, skipping
disabled descriptors before the slot initialisation, dispatching enabled
ones, and counting entries with `ret == ESP_OK && readings[i].valid`.
`env i` is the driver outcome for descriptor `i`; `slots` is the
caller-supplied array contents. -/
def read_all_go (env : ℕ → DriverCall) (maxReadings : ℕ) :
    List SensorConfig → ℕ → List SensorReading → List SensorReading × ℕ
  | [], _, slots => (slots, 0)
  | c :: cs, i, slots =>
    if i < maxReadings then
      if c.enabled then
        let sr := read_one_sensor c.type (env i)
        let rest := read_all_go env maxReadings cs (i + 1) (slots.set i sr.1)
        (rest.1, (if sr.2 = ESP_OK ∧ sr.1.valid then 1 else 0) + rest.2)
      else
        read_all_go env maxReadings cs (i + 1) slots
    else (slots, 0)

/-- Embeds `sensor_interface_read_all` (sensor_interface.c:314-383).
Returns the final array contents and the `int` result (count of valid
readings, `-1` on the argument/state guards; the NULL-pointer guard has
no counterpart here). -/
def sensor_interface_read_all (initialized : Bool) (cfgs : List SensorConfig)
    (env : ℕ → DriverCall) (slots : List SensorReading) (maxReadings : ℕ) :
    List SensorReading × ℤ :=
  if maxReadings = 0 then (slots, -1)
  else if !initialized then (slots, -1)
  else
    let r := read_all_go env maxReadings cfgs 0 slots
    (r.1, (r.2 : ℤ))

/-- Embeds `sensor_interface_read_sensor` (sensor_interface.c:392-410):
searches for an enabled descriptor of the requested type, and if one
exists returns `sensor_interface_read_all(reading, 1)` - the `int`
count is implicitly converted to the `esp_err_t` result.  `reading` is
the caller's single-struct buffer. -/
def sensor_interface_read_sensor (initialized : Bool)
    (cfgs : List SensorConfig) (env : ℕ → DriverCall) (t : SensorType)
    (reading : SensorReading) : SensorReading × ℤ :=
  if !initialized then (reading, (ESP_ERR_INVALID_STATE : ℤ))
  else if cfgs.any fun c => c.type = t ∧ c.enabled then
    let r := sensor_interface_read_all true cfgs env [reading] 1
    (r.1.getD 0 reading, r.2)
  else (reading, (ESP_ERR_NOT_FOUND : ℤ))

/-! ## Health scorer (`src/plant_monitor.c`) -/

/-- The health-band fields of `plant_monitor_config_t`. -/
structure HealthConfig where
  temp_min : ℚ
  temp_max : ℚ
  temp_optimal_min : ℚ
  temp_optimal_max : ℚ
  humidity_min : ℚ
  humidity_max : ℚ
  humidity_optimal_min : ℚ
  humidity_optimal_max : ℚ
deriving DecidableEq

/-- The defaults set by `plant_monitor_get_default_config`
(plant_monitor.c:349-356). -/
def defaultHealthConfig : HealthConfig :=
  ⟨10, 35, 18, 28, 30, 80, 40, 70⟩

/-- Mirrors `plant_health_level_t` (plant_monitor.h:104-108): the enum
has exactly these five levels - there is no Unknown sentinel. -/
inductive HealthLevel where
  | excellent | good | fair | poor | critical
deriving DecidableEq

/-- Mirrors `plant_health_t` (score, level, text, recommendation; the
emoji field is elided). -/
structure PlantHealth where
  health_score : ℚ
  health_level : HealthLevel
  health_text : String
  recommendation : String
deriving DecidableEq

/-- The fields of `plant_monitor_data_t` consumed or produced by the
sensor-read/health path (per-sensor copies and timestamps elided). -/
structure PlantMonitorData where
  temperature_avg : ℚ
  humidity_avg : ℚ
  soil_moisture : ℕ
  light_level : ℕ
deriving DecidableEq

/-- The per-sensor state consumed by `plant_monitor_read_sensors`: the
`valid`/value fields of `g_state.sensor1/2` after `aht10_read_sensor`. -/
structure AhtSensorState where
  temperature : ℚ
  humidity : ℚ
  valid : Bool
deriving DecidableEq

/-- Embeds the averaging part of `plant_monitor_read_sensors`
(plant_monitor.c:460-525).  `ret1`/`ret2` are the return codes of the
two `aht10_read_sensor` calls, `s1`/`s2` the sensor states they leave,
`soil`/`light` the ADC values stored by `read_analog_sensors`.  Stored
per-sensor values require `ret == ESP_OK && valid` (lines 470-484) and
default to 0; the average sums those stored values over the sensors
with `valid` set (lines 487-509), defaulting to 0 when no sensor is
valid. -/
def plant_monitor_read_sensors (ret1 ret2 : ℕ) (s1 s2 : AhtSensorState)
    (soil light : ℕ) : PlantMonitorData :=
  let t1 : ℚ := if ret1 = ESP_OK ∧ s1.valid then s1.temperature else 0
  let h1 : ℚ := if ret1 = ESP_OK ∧ s1.valid then s1.humidity else 0
  let t2 : ℚ := if ret2 = ESP_OK ∧ s2.valid then s2.temperature else 0
  let h2 : ℚ := if ret2 = ESP_OK ∧ s2.valid then s2.humidity else 0
  let n : ℕ := (if s1.valid then 1 else 0) + (if s2.valid then 1 else 0)
  let tsum : ℚ := (if s1.valid then t1 else 0) + (if s2.valid then t2 else 0)
  let hsum : ℚ := (if s1.valid then h1 else 0) + (if s2.valid then h2 else 0)
  { temperature_avg := if 0 < n then tsum / n else 0,
    humidity_avg := if 0 < n then hsum / n else 0,
    soil_moisture := soil,
    light_level := light }

/-- Embeds `plant_monitor_calculate_health` (plant_monitor.c:527-594):
band score for the averaged temperature, band score for the averaged
humidity, overall = their mean, then the threshold classification.  No
other field of `data` is consulted. -/
def plant_monitor_calculate_health (cfg : HealthConfig)
    (data : PlantMonitorData) : PlantHealth :=
  let temp_score : ℚ :=
    if cfg.temp_optimal_min ≤ data.temperature_avg ∧
       data.temperature_avg ≤ cfg.temp_optimal_max then 100
    else if cfg.temp_min ≤ data.temperature_avg ∧
            data.temperature_avg ≤ cfg.temp_max then 50
    else 0
  let hum_score : ℚ :=
    if cfg.humidity_optimal_min ≤ data.humidity_avg ∧
       data.humidity_avg ≤ cfg.humidity_optimal_max then 100
    else if cfg.humidity_min ≤ data.humidity_avg ∧
            data.humidity_avg ≤ cfg.humidity_max then 50
    else 0
  let score := (temp_score + hum_score) / 2
  let levelText : HealthLevel × String × String :=
    if 90 ≤ score then
      (.excellent, "Excellent", "Perfect conditions! Keep it up.")
    else if 70 ≤ score then
      (.good, "Good", "Good conditions. Monitor regularly.")
    else if 50 ≤ score then
      (.fair, "Fair", "Conditions are acceptable but could be better.")
    else if 30 ≤ score then
      (.poor, "Poor",
        "Conditions need improvement. Check temperature and humidity.")
    else
      (.critical, "Critical",
        "Immediate attention required! Check all conditions.")
  ⟨score, levelText.1, levelText.2.1, levelText.2.2⟩

/-! ## Spec-side health scorer (§4.7 of the specification)

For the refinement claim about axis handling we also write down the
scorer exactly as the specification words it, to compare with the
code's scorer: one score per axis (temperature, humidity, light) only
for axes with at least one valid contributing reading, overall score =
mean of the included axes, with the spec's default bands. -/

/-- Band score per the spec: 100 in the optimal band, 50 in the
acceptable band, else 0. -/
def specBandScore (optLo optHi accLo accHi v : ℚ) : ℚ :=
  if optLo ≤ v ∧ v ≤ optHi then 100
  else if accLo ≤ v ∧ v ≤ accHi then 50
  else 0

/-- Overall score per the spec's words: each axis is an optional valid
value (`none` = no valid reading, excluded); the overall score is the
mean of the included axes' band scores, using the spec's default bands
(temperature [18,28]/[10,35], humidity [40,70]/[30,80], light
[1000,10000]/[100,50000] lux). -/
def specOverallScore (temp hum light : Option ℚ) : Option ℚ :=
  let scores :=
    (temp.map fun v => specBandScore 18 28 10 35 v).toList ++
    (hum.map fun v => specBandScore 40 70 30 80 v).toList ++
    (light.map fun v => specBandScore 1000 10000 100 50000 v).toList
  if scores.length = 0 then none
  else some (scores.sum / scores.length)

/-! ## Helper lemmas about the registry loop -/


def defaultCfg : SensorConfig := ⟨SensorType.aht10, false⟩

theorem read_all_go_length (env : ℕ → DriverCall) (maxR : ℕ)
    (cfgs : List SensorConfig) :
    ∀ (i : ℕ) (slots : List SensorReading),
      ((read_all_go env maxR cfgs i slots).1).length = slots.length := by
  induction cfgs with
  | nil => intro i slots; rfl
  | cons c cs ih =>
    intro i slots
    simp only [read_all_go]
    split
    · split
      · simpa using ih (i + 1) (slots.set i (read_one_sensor c.type (env i)).1)
      · exact ih (i + 1) slots
    · rfl

theorem read_all_go_count_le (env : ℕ → DriverCall) (maxR : ℕ)
    (cfgs : List SensorConfig) :
    ∀ (i : ℕ) (slots : List SensorReading),
      (read_all_go env maxR cfgs i slots).2 ≤ cfgs.length := by
  induction cfgs with
  | nil => intro i slots; simp [read_all_go]
  | cons c cs ih =>
    intro i slots
    simp only [read_all_go, List.length_cons]
    split
    · split
      · have h := ih (i + 1) (slots.set i (read_one_sensor c.type (env i)).1)
        dsimp only
        split <;> omega
      · exact (ih (i + 1) slots).trans (by omega)
    · simp

theorem read_all_go_getElem (env : ℕ → DriverCall) (maxR : ℕ)
    (cfgs : List SensorConfig) :
    ∀ (i : ℕ) (slots : List SensorReading) (j : ℕ),
      ((read_all_go env maxR cfgs i slots).1)[j]? =
        if i ≤ j ∧ j < i + cfgs.length ∧ j < maxR ∧ j < slots.length ∧
           (cfgs.getD (j - i) defaultCfg).enabled = true then
          some (read_one_sensor (cfgs.getD (j - i) defaultCfg).type (env j)).1
        else slots[j]? := by
  induction cfgs with
  | nil =>
    intro i slots j
    rw [if_neg (by rintro ⟨h1, h2, -⟩; simp at h2; omega)]
    rfl
  | cons c cs ih =>
    intro i slots j
    simp only [read_all_go, List.length_cons]
    by_cases himax : i < maxR
    · simp only [himax, if_true]
      by_cases hen : c.enabled = true
      · simp only [hen, if_true]
        show ((read_all_go env maxR cs (i + 1)
            (slots.set i (read_one_sensor c.type (env i)).1)).1)[j]? = _
        rw [ih (i + 1) (slots.set i (read_one_sensor c.type (env i)).1) j,
          List.length_set]
        rcases Nat.lt_trichotomy j i with hji | hji | hji
        · rw [List.getElem?_set_ne (by omega)]
          split_ifs with h1 h2 h3
          · exact absurd h1.1 (by omega)
          · exact absurd h1.1 (by omega)
          · exact absurd h3.1 (by omega)
          · rfl
        · subst hji
          simp only [Nat.sub_self, List.getD_cons_zero]
          by_cases hjl : j < slots.length
          · rw [List.getElem?_set_eq_of_lt _ hjl]
            split_ifs with h1 h2 h3
            · exact absurd h1.1 (by omega)
            · exact absurd h1.1 (by omega)
            · rfl
            · exact absurd ⟨le_refl j, by omega, himax, hjl, hen⟩ h3
          · have hn1 : (slots.set j (read_one_sensor c.type (env j)).1)[j]? = none :=
              List.getElem?_eq_none (by rw [List.length_set]; omega)
            have hn2 : slots[j]? = none := List.getElem?_eq_none (by omega)
            rw [hn1, hn2]
            split_ifs with h1 h2 h3
            · exact absurd h1.1 (by omega)
            · exact absurd h1.1 (by omega)
            · exact absurd h3.2.2.2.1 (by omega)
            · rfl
        · have hd : (c :: cs).getD (j - i) defaultCfg
              = cs.getD (j - (i + 1)) defaultCfg := by
            have hs : j - i = (j - (i + 1)) + 1 := by omega
            rw [hs, List.getD_cons_succ]
          rw [hd, List.getElem?_set_ne (by omega)]
          split_ifs with h1 h2 h3
          · rfl
          · exact absurd ⟨by omega, by omega, h1.2.2.1, h1.2.2.2.1,
              h1.2.2.2.2⟩ h2
          · exact absurd ⟨by omega, by omega, h3.2.2.1, h3.2.2.2.1,
              h3.2.2.2.2⟩ h1
          · rfl
      · simp only [hen, if_false]
        show ((read_all_go env maxR cs (i + 1) slots).1)[j]? = _
        rw [ih (i + 1) slots j]
        rcases Nat.lt_trichotomy j i with hji | hji | hji
        · split_ifs with h1 h2 h3
          · exact absurd h1.1 (by omega)
          · exact absurd h1.1 (by omega)
          · exact absurd h3.1 (by omega)
          · rfl
        · subst hji
          simp only [Nat.sub_self, List.getD_cons_zero]
          split_ifs with h1 h2 h3
          · exact absurd h1.1 (by omega)
          · exact absurd h1.1 (by omega)
          · exact absurd h3.2.2.2.2 hen
          · rfl
        · have hd : (c :: cs).getD (j - i) defaultCfg
              = cs.getD (j - (i + 1)) defaultCfg := by
            have hs : j - i = (j - (i + 1)) + 1 := by omega
            rw [hs, List.getD_cons_succ]
          rw [hd]
          split_ifs with h1 h2 h3
          · rfl
          · exact absurd ⟨by omega, by omega, h1.2.2.1, h1.2.2.2.1,
              h1.2.2.2.2⟩ h2
          · exact absurd ⟨by omega, by omega, h3.2.2.1, h3.2.2.2.1,
              h3.2.2.2.2⟩ h1
          · rfl
    · rw [if_neg himax,
        if_neg (fun h => himax (lt_of_le_of_lt h.1 h.2.2.1))]

/-! ## Claim theorems -/

set_option maxRecDepth 100000

/-- C1: the claim says every probe read computes a Maxim/Dallas CRC8 over
scratchpad bytes 0-7 and compares it to byte 8, failing with CrcMismatch.
The code (ds18b20.c:234-240) only tests whether byte 8 equals zero and
never computes a CRC: on the scratchpad below the true Dallas CRC8 of
bytes 0-7 is 0xB8, so the mandated check fails, yet the driver returns a
valid numeric 25.0625 degC reading; dually, the same scratchpad carrying
its correct CRC byte 0xB8 is rejected as invalid. -/
theorem c1_crc_check_is_placeholder :
    crc8_maxim [0x91, 0x01, 0, 0, 0, 0, 0, 0] = 0xB8 ∧
    ds18b20_read true true true [0x91, 0x01, 0, 0, 0, 0, 0, 0, 0] =
      ⟨some (401 / 16), true, ESP_OK⟩ ∧
    ds18b20_read true true true [0x91, 0x01, 0, 0, 0, 0, 0, 0, 0xB8] =
      ⟨none, false, ESP_ERR_INVALID_RESPONSE⟩ := by
  refine ⟨by decide, ?_, by decide⟩
  norm_num [ds18b20_read, toInt16, ESP_OK]

/-- C7: whenever the driver's scratchpad acceptance check passes (byte 8
is zero), the probe decodes the signed 16-bit two's-complement raw value
from bytes 0-1 (byte 1 high) and returns raw * 0.0625 degC as a valid
reading, and a negative raw always yields a negative temperature. -/
theorem c7_probe_decode (scratchpad : List ℕ)
    (hpass : scratchpad.getD 8 0 = 0) :
    ds18b20_read true true true scratchpad =
      ⟨some ((toInt16 ((scratchpad.getD 1 0) * 256 + scratchpad.getD 0 0) : ℚ)
          * 0.0625), true, ESP_OK⟩ ∧
    (toInt16 ((scratchpad.getD 1 0) * 256 + scratchpad.getD 0 0) < 0 →
      (toInt16 ((scratchpad.getD 1 0) * 256 + scratchpad.getD 0 0) : ℚ)
          * 0.0625 < 0) := by
  constructor
  · unfold ds18b20_read
    rw [hpass]
    simp
  · intro hneg
    have hq : (toInt16 ((scratchpad.getD 1 0) * 256 + scratchpad.getD 0 0) : ℚ) < 0 := by
      exact_mod_cast hneg
    nlinarith

/-- C7 witness: scratchpad bytes [0x91, 0x01] give raw 0x0191 = 401 and
temperature 25.0625 degC; bytes [0x5E, 0xFF] give raw -162 and the
negative temperature -10.125 degC. -/
theorem c7_probe_decode_witness :
    ds18b20_read true true true [0x91, 0x01, 0, 0, 0, 0, 0, 0, 0] =
      ⟨some (25.0625 : ℚ), true, ESP_OK⟩ ∧
    ds18b20_read true true true [0x5E, 0xFF, 0, 0, 0, 0, 0, 0, 0] =
      ⟨some (-10.125 : ℚ), true, ESP_OK⟩ ∧ ((-10.125 : ℚ) < 0) := by
  refine ⟨?_, ?_, by norm_num⟩
  · have h := (c7_probe_decode [0x91, 0x01, 0, 0, 0, 0, 0, 0, 0] (by decide)).1
    rw [h]
    norm_num [toInt16]
  · have h := (c7_probe_decode [0x5E, 0xFF, 0, 0, 0, 0, 0, 0, 0] (by decide)).1
    rw [h]
    norm_num [toInt16]

/-- C9 counterexample: the probe driver performs no decode-time range
check - the scratchpad [0xFF, 0x7F, ...] passes its acceptance check and
is returned as a valid reading of 2047.9375 degC, far outside any
documented physical range (even the repository's widest, [-50, 150],
which the combo driver enforces). -/
theorem c9_probe_range_unchecked :
    ds18b20_read true true true [0xFF, 0x7F, 0, 0, 0, 0, 0, 0, 0] =
      ⟨some (32767 / 16), true, ESP_OK⟩ ∧ (150 : ℚ) < 32767 / 16 := by
  constructor
  · norm_num [ds18b20_read, toInt16, ESP_OK]
  · norm_num


/-- C6: for every 6-byte combo-sensor reply whose status byte has the
busy bit (bit 7) clear and the calibration bit (bit 3) set, the driver
decodes the 20-bit raw humidity from bytes 1-3 as raw / 2^20 * 100 and
the 20-bit raw temperature from bytes 3-5 as raw / 2^20 * 200 - 50. -/
theorem c6_combo_decode (data : List ℕ)
    (hbusy : (data.getD 0 0) / 128 % 2 = 0)
    (hcal : (data.getD 0 0) / 8 % 2 = 1) :
    (aht10_decode data).humidity =
      (((data.getD 1 0) * 4096 + (data.getD 2 0) * 16 + (data.getD 3 0) / 16 : ℕ) : ℚ)
        * 100 / 1048576 ∧
    (aht10_decode data).temperature =
      ((((data.getD 3 0) % 16) * 65536 + (data.getD 4 0) * 256 + data.getD 5 0 : ℕ) : ℚ)
        * 200 / 1048576 - 50 := by
  have h1 : ¬((data.getD 0 0) / 128 % 2 = 1) := by omega
  have h2 : ¬((data.getD 0 0) / 8 % 2 = 0) := by omega
  simp only [aht10_decode]
  rw [if_neg h1, if_neg h2]
  split_ifs <;> exact ⟨rfl, rfl⟩

/-- C6 witness: status byte 0x08 (busy clear, calibrated set) with data
bytes giving raw humidity 0 and raw temperature 0x8000 decodes to
humidity 0.0 % and temperature -43.75 degC exactly (hence within the
claimed 0.01 tolerance), and the reading is valid. -/
theorem c6_combo_decode_witness :
    (aht10_decode [0x08, 0, 0, 0, 0x80, 0]).humidity = 0 ∧
    (aht10_decode [0x08, 0, 0, 0, 0x80, 0]).temperature = -43.75 ∧
    |(aht10_decode [0x08, 0, 0, 0, 0x80, 0]).humidity - 0| ≤ 0.01 ∧
    |(aht10_decode [0x08, 0, 0, 0, 0x80, 0]).temperature - (-43.75)| ≤ 0.01 ∧
    (aht10_decode [0x08, 0, 0, 0, 0x80, 0]).valid = true := by
  have h := c6_combo_decode [0x08, 0, 0, 0, 0x80, 0] (by decide) (by decide)
  have hh : (aht10_decode [0x08, 0, 0, 0, 0x80, 0]).humidity = 0 := by
    rw [h.1]; norm_num
  have ht : (aht10_decode [0x08, 0, 0, 0, 0x80, 0]).temperature = -43.75 := by
    rw [h.2]; norm_num
  refine ⟨hh, ht, ?_, ?_, by norm_num [aht10_decode]⟩
  · rw [hh]; norm_num
  · rw [ht]; norm_num

/-- C8 counterexample: the claim says the lux scale factor is the
mode-dependent datasheet value, not one constant across all modes.  In
the code every one of the six resolution modes divides by the same
constant 1.2: raw 9000 decodes to 7500 in all six, including the H2
half-resolution modes whose datasheet factor differs. -/
theorem c8_uniform_scale_factor :
    gy302_decode .contH 9000 = 7500 ∧ gy302_decode .contH2 9000 = 7500 ∧
    gy302_decode .contL 9000 = 7500 ∧ gy302_decode .oneH 9000 = 7500 ∧
    gy302_decode .oneH2 9000 = 7500 ∧ gy302_decode .oneL 9000 = 7500 := by
  refine ⟨?_, ?_, ?_, ?_, ?_, ?_⟩ <;> norm_num [gy302_decode]

/-- C8 amended: the driver decodes lux = rawUint16 / 1.2 with the single
constant 1.2 in every measurement mode (the decode is mode-independent),
and raw 0x2328 = 9000 yields exactly 7500 lux. -/
theorem c8_amended_single_constant (mode : Gy302Mode) (raw : ℕ) :
    gy302_decode mode raw = (raw : ℚ) / 1.2 ∧
    gy302_decode mode raw = gy302_decode .contH raw ∧
    gy302_decode mode 9000 = 7500 := by
  refine ⟨?_, ?_, ?_⟩ <;> cases mode <;> norm_num [gy302_decode]

/-- C9 amended: every reading marked invalid carries a non-default
(nonzero) error code in all three drivers, and the combo driver enforces
its documented range at decode time (humidity in [0,100], temperature in
[-50,150]) for valid readings; the probe and light drivers perform no
such range check (see the counterexample). -/
theorem c9_amended_invariant :
    (∀ (init : Bool) (w r : ℕ) (data : List ℕ) (out : Aht10Reading) (ret : ℕ),
        aht10_read init w r data = (some out, ret) →
        (out.valid = false → out.error ≠ 0) ∧
        (out.valid = true → 0 ≤ out.humidity ∧ out.humidity ≤ 100 ∧
          -50 ≤ out.temperature ∧ out.temperature ≤ 150)) ∧
    (∀ (init r1 r2 : Bool) (sp : List ℕ),
        (ds18b20_read init r1 r2 sp).valid = false →
        (ds18b20_read init r1 r2 sp).error ≠ 0) ∧
    (∀ (init : Bool) (mode : Gy302Mode) (w r : ℕ) (data : List ℕ),
        (gy302_read init mode w r data).valid = false →
        (gy302_read init mode w r data).error ≠ 0) := by
  refine ⟨?_, ?_, ?_⟩
  · intro init w r data out ret h
    have hdec : ∀ d : List ℕ,
        ((aht10_decode d).valid = false → (aht10_decode d).error ≠ 0) ∧
        ((aht10_decode d).valid = true → 0 ≤ (aht10_decode d).humidity ∧
          (aht10_decode d).humidity ≤ 100 ∧ -50 ≤ (aht10_decode d).temperature ∧
          (aht10_decode d).temperature ≤ 150) := by
      intro d
      simp only [aht10_decode]
      split_ifs with hb hc hr
      · simp [ESP_ERR_TIMEOUT]
      · simp [ESP_ERR_INVALID_STATE]
      · simpa using hr
      · simp [ESP_ERR_INVALID_RESPONSE]
    unfold aht10_read at h
    split_ifs at h with hi hw hr
    · simp at h
    · rw [Prod.mk.injEq, Option.some.injEq] at h
      rw [← h.1]
      exact ⟨fun _ => hw, fun hv => by simp at hv⟩
    · rw [Prod.mk.injEq, Option.some.injEq] at h
      rw [← h.1]
      exact ⟨fun _ => hr, fun hv => by simp at hv⟩
    · rw [Prod.mk.injEq, Option.some.injEq] at h
      rw [← h.1]
      exact hdec data
  · intro init r1 r2 sp h
    unfold ds18b20_read at h ⊢
    split_ifs at h ⊢ <;>
      simp_all [ESP_ERR_INVALID_STATE, ESP_ERR_NOT_FOUND, ESP_ERR_INVALID_RESPONSE]
  · intro init mode w r data h
    unfold gy302_read at h ⊢
    split_ifs at h ⊢ with hi hw hr
    · simp [ESP_ERR_INVALID_STATE]
    · exact hw.2
    · exact hr

/-- C9 witness: concrete instances of the amended invariant - an
uninitialised probe read carries a nonzero error, the combo decode of a
calibrated all-zero frame has nonnegative humidity, and a failed one-shot
light-mode write carries its nonzero error. -/
theorem c9_amended_invariant_witness :
    (ds18b20_read false true true []).error ≠ 0 ∧
    0 ≤ (aht10_decode [8, 0, 0, 0, 128, 0]).humidity ∧
    (gy302_read true .oneH 0x107 0 []).error ≠ 0 := by
  refine ⟨?_, ?_, ?_⟩
  · exact c9_amended_invariant.2.1 false true true [] (by decide)
  · have h := (c9_amended_invariant.1 true 0 0 [8, 0, 0, 0, 128, 0]
      (aht10_decode [8, 0, 0, 0, 128, 0])
      (aht10_decode [8, 0, 0, 0, 128, 0]).error rfl).2
    exact (h (by norm_num [aht10_decode])).1
  · exact c9_amended_invariant.2.2 true .oneH 0x107 0 [] (by decide)


/-- C2 counterexample: with both combo sensors invalid (zero axes with
valid data) the pipeline reports score 0 with level Critical, text
"Critical" and the generic critical recommendation - there is no Unknown
sentinel and no "no sensor data" message in the code. -/
theorem c2_zero_valid_reported_critical :
    plant_monitor_calculate_health defaultHealthConfig
        (plant_monitor_read_sensors ESP_ERR_TIMEOUT ESP_ERR_TIMEOUT
          ⟨0, 0, false⟩ ⟨0, 0, false⟩ 0 0) =
      ⟨0, .critical, "Critical",
        "Immediate attention required! Check all conditions."⟩ := by
  norm_num [plant_monitor_read_sensors, plant_monitor_calculate_health,
    defaultHealthConfig]

/-- C2 amended: whenever both sensors are invalid, the averages default
to 0, both axes score 0 under the default bands, and the scorer returns
score 0 classified as Critical (the level enum has no Unknown value). -/
theorem c2_amended_zero_valid (ret1 ret2 : ℕ) (s1 s2 : AhtSensorState)
    (soil light : ℕ) (h1 : s1.valid = false) (h2 : s2.valid = false) :
    (plant_monitor_calculate_health defaultHealthConfig
        (plant_monitor_read_sensors ret1 ret2 s1 s2 soil light)).health_score
      = 0 ∧
    (plant_monitor_calculate_health defaultHealthConfig
        (plant_monitor_read_sensors ret1 ret2 s1 s2 soil light)).health_level
      = HealthLevel.critical := by
  have hd : plant_monitor_read_sensors ret1 ret2 s1 s2 soil light =
      ⟨0, 0, soil, light⟩ := by
    simp [plant_monitor_read_sensors, h1, h2]
  rw [hd]
  norm_num [plant_monitor_calculate_health, defaultHealthConfig]

/-- C2 witness: a concrete zero-valid batch is classified Critical. -/
theorem c2_amended_zero_valid_witness :
    (plant_monitor_calculate_health defaultHealthConfig
        (plant_monitor_read_sensors ESP_ERR_TIMEOUT ESP_ERR_TIMEOUT
          ⟨21, 50, false⟩ ⟨0, 0, false⟩ 0 0)).health_level =
      HealthLevel.critical :=
  (c2_amended_zero_valid ESP_ERR_TIMEOUT ESP_ERR_TIMEOUT
    ⟨21, 50, false⟩ ⟨0, 0, false⟩ 0 0 rfl rfl).2

/-- C3 counterexample: the claim says the overall score is the mean over
the temperature, humidity and light axes that have valid readings.  In
the code the light reading never contributes: two batches differing only
in the light value produce identical assessments, and at temperature 23,
humidity 55, light 0 the code scores 100 while the spec-side three-axis
mean is 200/3. -/
theorem c3_light_axis_never_scored :
    plant_monitor_calculate_health defaultHealthConfig ⟨23, 55, 0, 0⟩ =
      plant_monitor_calculate_health defaultHealthConfig ⟨23, 55, 0, 5000⟩ ∧
    (plant_monitor_calculate_health defaultHealthConfig
        ⟨23, 55, 0, 0⟩).health_score = 100 ∧
    specOverallScore (some 23) (some 55) (some 0) = some (200 / 3) ∧
    ((200 : ℚ) / 3 ≠ 100) := by
  refine ⟨rfl, ?_, ?_, by norm_num⟩
  · norm_num [plant_monitor_calculate_health, defaultHealthConfig]
  · norm_num [specOverallScore, specBandScore]

/-- C3 amended: the scorer computes exactly two axis scores -
temperature and humidity banded by the configured bounds - and the
overall score is always their two-way mean; the soil and light fields of
the batch never influence the result. -/
theorem c3_amended_two_axis_mean (cfg : HealthConfig) (t h : ℚ)
    (s1 l1 s2 l2 : ℕ) :
    plant_monitor_calculate_health cfg ⟨t, h, s1, l1⟩ =
      plant_monitor_calculate_health cfg ⟨t, h, s2, l2⟩ ∧
    (plant_monitor_calculate_health cfg ⟨t, h, s1, l1⟩).health_score =
      (specBandScore cfg.temp_optimal_min cfg.temp_optimal_max
          cfg.temp_min cfg.temp_max t +
        specBandScore cfg.humidity_optimal_min cfg.humidity_optimal_max
          cfg.humidity_min cfg.humidity_max h) / 2 := by
  exact ⟨rfl, rfl⟩


/-- C4: for any configuration of N sensors and any pattern of per-sensor
driver outcomes, the batch read returns a count between 0 and N, a
failing sensor's own slot is marked invalid carrying its nonzero error
code, and any other sensor's slot is unaffected by that failure (the
result at slot j only depends on driver outcome j). -/
theorem c4_read_all_partial_failure (cfgs : List SensorConfig)
    (env env' : ℕ → DriverCall) (slots : List SensorReading) (maxR : ℕ)
    (hwf : ∀ k, (env k).wf) (hmax : 0 < maxR) (hfit : cfgs.length ≤ maxR)
    (hlen : maxR ≤ slots.length) :
    (0 ≤ (sensor_interface_read_all true cfgs env slots maxR).2 ∧
      (sensor_interface_read_all true cfgs env slots maxR).2 ≤ cfgs.length) ∧
    (∀ i e, i < cfgs.length →
      (cfgs.getD i defaultCfg).enabled = true →
      (env i = .initFail e ∨ env i = .readFail e) →
      e ≠ 0 ∧ (sensor_interface_read_all true cfgs env slots maxR).1[i]? =
        some { initSlot with error := e }) ∧
    (∀ i j, j < cfgs.length → j ≠ i →
      (∀ k, k ≠ i → env' k = env k) →
      (sensor_interface_read_all true cfgs env' slots maxR).1[j]? =
        (sensor_interface_read_all true cfgs env slots maxR).1[j]?) := by
  have hm0 : ¬(maxR = 0) := by omega
  have hred : ∀ (e : ℕ → DriverCall),
      sensor_interface_read_all true cfgs e slots maxR =
        ((read_all_go e maxR cfgs 0 slots).1,
          ((read_all_go e maxR cfgs 0 slots).2 : ℤ)) := by
    intro e
    simp [sensor_interface_read_all, hm0]
  refine ⟨⟨?_, ?_⟩, ?_, ?_⟩
  · rw [hred]
    exact Int.natCast_nonneg _
  · rw [hred]
    show ((read_all_go env maxR cfgs 0 slots).2 : ℤ) ≤ (cfgs.length : ℤ)
    exact_mod_cast read_all_go_count_le env maxR cfgs 0 slots
  · intro i e hi hen hfail
    have hne : e ≠ 0 := by
      rcases hfail with hf | hf <;>
        · have := hwf i
          rw [hf] at this
          exact this
    refine ⟨hne, ?_⟩
    rw [hred]
    show (read_all_go env maxR cfgs 0 slots).1[i]? = _
    rw [read_all_go_getElem env maxR cfgs 0 slots i,
      if_pos ⟨Nat.zero_le i, by omega, by omega, by omega, by simpa using hen⟩]
    rcases hfail with hf | hf <;>
      simp [Nat.sub_zero, hf, read_one_sensor]
  · intro i j hj hji hagree
    rw [hred, hred]
    show (read_all_go env' maxR cfgs 0 slots).1[j]? =
      (read_all_go env maxR cfgs 0 slots).1[j]?
    rw [read_all_go_getElem env maxR cfgs 0 slots j,
      read_all_go_getElem env' maxR cfgs 0 slots j, hagree j hji]

/-- C4 witness: two sensors, the first timing out on the bus - its slot
carries ESP_ERR_TIMEOUT and the returned count is still nonnegative. -/
theorem c4_read_all_partial_failure_witness :
    ((sensor_interface_read_all true
        [⟨SensorType.aht10, true⟩, ⟨SensorType.ds18b20, true⟩]
        (fun k => if k = 0 then DriverCall.readFail ESP_ERR_TIMEOUT
                  else DriverCall.success 20 50 0 0)
        [initSlot, initSlot] 2).1[0]? =
      some { initSlot with error := ESP_ERR_TIMEOUT } ∧
      ESP_ERR_TIMEOUT ≠ 0) ∧
    (0 ≤ (sensor_interface_read_all true
        [⟨SensorType.aht10, true⟩, ⟨SensorType.ds18b20, true⟩]
        (fun k => if k = 0 then DriverCall.readFail ESP_ERR_TIMEOUT
                  else DriverCall.success 20 50 0 0)
        [initSlot, initSlot] 2).2) := by
  have h := c4_read_all_partial_failure
    [⟨SensorType.aht10, true⟩, ⟨SensorType.ds18b20, true⟩]
    (fun k => if k = 0 then DriverCall.readFail ESP_ERR_TIMEOUT
              else DriverCall.success 20 50 0 0)
    (fun k => if k = 0 then DriverCall.readFail ESP_ERR_TIMEOUT
              else DriverCall.success 20 50 0 0)
    [initSlot, initSlot] 2
    (by
      intro k
      by_cases hk : k = 0 <;>
        simp [hk, DriverCall.wf, ESP_ERR_TIMEOUT])
    (by decide) (by decide) (by decide)
  have h2 := h.2.1 0 ESP_ERR_TIMEOUT (by decide) (by decide) (Or.inr rfl)
  exact ⟨⟨h2.2, h2.1⟩, h.1.1⟩


/-- C5: the claim says readOne(kind) returns the first enabled
descriptor's reading of that kind.  With an enabled combo sensor at
index 0 and an enabled probe at index 1, requesting the probe kind
returns the combo sensor's reading (descriptor 0) together with the
valid-count 1 converted to the esp_err_t result (not ESP_OK), because
sensor_interface_read_sensor forwards to read_all over a length-1 window
instead of reading the descriptor it found.  The NotFound half of the
claim does hold. -/
theorem c5_read_one_returns_slot_zero :
    sensor_interface_read_sensor true
        [⟨SensorType.aht10, true⟩, ⟨SensorType.ds18b20, true⟩]
        (fun k => if k = 0 then DriverCall.success 21.5 48 0 0
                  else DriverCall.success 19 0 0 0)
        SensorType.ds18b20 initSlot =
      ({ initSlot with temperature := 21.5, humidity := 48, valid := true },
        1) ∧
    ((1 : ℤ) ≠ (ESP_OK : ℤ)) ∧
    sensor_interface_read_sensor true [⟨SensorType.aht10, true⟩]
        (fun _ => DriverCall.success 21.5 48 0 0)
        SensorType.ds18b20 initSlot =
      (initSlot, (ESP_ERR_NOT_FOUND : ℤ)) := by
  refine ⟨?_, by decide, ?_⟩ <;>
    simp [sensor_interface_read_sensor, sensor_interface_read_all,
      read_all_go, read_one_sensor, initSlot, ESP_OK, ESP_ERR_NOT_FOUND]

/-- C10: a batch read leaves the slot of every disabled descriptor
completely unmodified (the skip happens before the per-entry field
initialisation), while every enabled in-range slot is fully rewritten
from its own driver outcome, independently of the caller's previous
slot contents. -/
theorem c10_disabled_slot_untouched (cfgs : List SensorConfig)
    (env : ℕ → DriverCall) (slots : List SensorReading) (maxR : ℕ)
    (hlen : maxR ≤ slots.length) :
    (∀ i, i < cfgs.length → (cfgs.getD i defaultCfg).enabled = false →
      (sensor_interface_read_all true cfgs env slots maxR).1[i]? =
        slots[i]?) ∧
    (∀ i, i < cfgs.length → i < maxR →
      (cfgs.getD i defaultCfg).enabled = true →
      (sensor_interface_read_all true cfgs env slots maxR).1[i]? =
        some (read_one_sensor (cfgs.getD i defaultCfg).type (env i)).1) := by
  by_cases hm0 : maxR = 0
  · constructor
    · intro i hi hdis
      simp [sensor_interface_read_all, hm0]
    · intro i hi him hen
      omega
  · have hred : sensor_interface_read_all true cfgs env slots maxR =
        ((read_all_go env maxR cfgs 0 slots).1,
          ((read_all_go env maxR cfgs 0 slots).2 : ℤ)) := by
      simp [sensor_interface_read_all, hm0]
    constructor
    · intro i hi hdis
      rw [hred]
      show (read_all_go env maxR cfgs 0 slots).1[i]? = slots[i]?
      rw [read_all_go_getElem env maxR cfgs 0 slots i, if_neg]
      rintro ⟨-, -, -, -, hen⟩
      rw [Nat.sub_zero] at hen
      rw [hdis] at hen
      exact Bool.false_ne_true hen
    · intro i hi him hen
      rw [hred]
      show (read_all_go env maxR cfgs 0 slots).1[i]? = _
      rw [read_all_go_getElem env maxR cfgs 0 slots i,
        if_pos ⟨Nat.zero_le i, by omega, him, by omega, by simpa using hen⟩]
      simp

/-- C10 witness: a disabled probe descriptor's junk-filled slot survives
a batch read verbatim while the enabled light descriptor's slot is fully
rewritten. -/
theorem c10_disabled_slot_untouched_witness :
    (sensor_interface_read_all true
        [⟨SensorType.ds18b20, false⟩, ⟨SensorType.gy302, true⟩]
        (fun _ => DriverCall.success 1 2 30 4)
        [⟨99, 88, 7, 6, 5, true, 4⟩, initSlot] 2).1[0]? =
      some ⟨99, 88, 7, 6, 5, true, 4⟩ ∧
    (sensor_interface_read_all true
        [⟨SensorType.ds18b20, false⟩, ⟨SensorType.gy302, true⟩]
        (fun _ => DriverCall.success 1 2 30 4)
        [⟨99, 88, 7, 6, 5, true, 4⟩, initSlot] 2).1[1]? =
      some { initSlot with lux := 30, light_level := 3, valid := true } := by
  have h := c10_disabled_slot_untouched
    [⟨SensorType.ds18b20, false⟩, ⟨SensorType.gy302, true⟩]
    (fun _ => DriverCall.success 1 2 30 4)
    [⟨99, 88, 7, 6, 5, true, 4⟩, initSlot] 2 (by decide)
  constructor
  · exact (h.1 0 (by decide) (by decide)).trans (by decide)
  · refine (h.2 1 (by decide) (by decide) (by decide)).trans ?_
    (norm_num [read_one_sensor, lightLevelOfLux, initSlot]; decide)

end PlantMonitor
